import Mathlib

/-
Verification of the control core of airsim_track_control.py: the
coordinate-to-control mapper and the command hysteresis gate, embedded
shallowly over ℚ, together with the per-iteration body of the control loop.
-/

namespace AirsimTrackControl

/-- Capture width in pixels (module constant `DIM_X = 640`). -/
def DIM_X : ℚ := 640

/-- Capture height in pixels (module constant `DIM_Y = 480`). -/
def DIM_Y : ℚ := 480

/-- Smallest radius of the tracked object, in pixels (`THRESHOLD_CONTOUR = 10`). -/
def THRESHOLD_CONTOUR : ℚ := 10

/-- How many times forward throttle is faster than backward (` FORWARD_RATIO = 2`). -/
def FORWARD_RATIO : ℚ := 2

/-- Needed throttle difference to update the controls (`CONTROL_THROTTLE_THRESHOLD = 0.1`). -/
def CONTROL_THROTTLE_THRESHOLD : ℚ := 1/10

/-- Needed steering difference to update the controls (`CONTROL_STEERING_THRESHOLD = 0.1`). -/
def CONTROL_STEERING_THRESHOLD : ℚ := 1/10

/-- The mutable `car_controls` object of the airsim API: the fields the
script writes before each `setCarControls` call. -/
structure CarControls where
  throttle : ℚ
  steering : ℚ
  is_manual_gear : Bool
  manual_gear : Int
deriving Repr, DecidableEq

/-- `car_controls` as produced by `connect_airsim`: airsim defaults with
`is_manual_gear = False`. -/
def initialCarControls : CarControls :=
  { throttle := 0, steering := 0, is_manual_gear := false, manual_gear := 0 }

/-- The `status_controls` dictionary: the last sent throttle/steering pair. -/
structure StatusControls where
  throttle : ℚ
  steering : ℚ
deriving Repr, DecidableEq

/-- `status_controls` as initialized in `main`: both entries set to 0. -/
def initialStatus : StatusControls := { throttle := 0, steering := 0 }

/-- `coordinates_to_controls`: transform tracking coordinates to control
commands, scaling forward throttle by ` FORWARD_RATIO`. -/
def coordinates_to_controls (coordinate_x coordinate_y : ℚ) : ℚ × ℚ :=
  let throttle := -(coordinate_y - (DIM_Y/2)) / DIM_Y
  let steering := -(coordinate_x - (DIM_X/2)) / DIM_X
  let throttle := if throttle > 0 then FORWARD_RATIO * throttle else throttle
  (throttle, steering)

/-- Result of one `send_controls` call: the (possibly mutated) `car_controls`
object, the (possibly mutated) `status_controls` dictionary, and the command
delivered to `client.setCarControls`, if any. -/
structure SendResult where
  car_controls : CarControls
  status_controls : StatusControls
  sent : Option CarControls
deriving Repr, DecidableEq

/-- `send_controls`: hysteresis gate. Transmits (and updates the status
dictionary) only when the candidate differs from the last sent pair by more
than a threshold on some axis; derives the gear flags from the throttle sign. -/
def send_controls (car_controls : CarControls) (status_controls : StatusControls)
    (throttle steering : ℚ) : SendResult :=
  let diff_throttle := |status_controls.throttle - throttle| > CONTROL_THROTTLE_THRESHOLD
  let diff_steering := |status_controls.steering - steering| > CONTROL_STEERING_THRESHOLD
  if diff_throttle ∨ diff_steering then
    let c1 := { car_controls with throttle := throttle, steering := steering }
    let c2 :=
      if throttle < 0 then
        { c1 with is_manual_gear := true, manual_gear := -1 }
      else
        { c1 with is_manual_gear := false }
    { car_controls := c2,
      status_controls := { throttle := throttle, steering := steering },
      sent := some c2 }
  else
    { car_controls := car_controls, status_controls := status_controls, sent := none }

/-- `send_controls` with a fallible `client.setCarControls`: when the gate
passes and the call raises (`call_ok = false`), the exception propagates after
the `car_controls` mutations but before the `status_controls` updates, so the
error carries the mutated `car_controls` and the untouched `status_controls`. -/
def send_controls_exc (call_ok : Bool) (car_controls : CarControls)
    (status_controls : StatusControls) (throttle steering : ℚ) :
    Except (CarControls × StatusControls) SendResult :=
  let diff_throttle := |status_controls.throttle - throttle| > CONTROL_THROTTLE_THRESHOLD
  let diff_steering := |status_controls.steering - steering| > CONTROL_STEERING_THRESHOLD
  if diff_throttle ∨ diff_steering then
    let c1 := { car_controls with throttle := throttle, steering := steering }
    let c2 :=
      if throttle < 0 then
        { c1 with is_manual_gear := true, manual_gear := -1 }
      else
        { c1 with is_manual_gear := false }
    if call_ok then
      Except.ok
        { car_controls := c2,
          status_controls := { throttle := throttle, steering := steering },
          sent := some c2 }
    else
      Except.error (c2, status_controls)
  else
    Except.ok { car_controls := car_controls, status_controls := status_controls, sent := none }

/-- What the Object Locator hands to an iteration of the control loop. -/
inductive Detection where
  | Detected (x y radius : ℚ)
  | NotDetected
deriving Repr, DecidableEq

/-- One iteration of the `while True` loop in `main`, restricted to its
control effects: with a contour found, controls are computed and gated only
when the radius exceeds `THRESHOLD_CONTOUR`; with no contour, the stop
command (0, 0) is gated. -/
def loop_body (car_controls : CarControls) (status_controls : StatusControls)
    (det : Detection) : SendResult :=
  match det with
  | Detection.Detected x y radius =>
      if radius > THRESHOLD_CONTOUR then
        let p := coordinates_to_controls x y
        send_controls car_controls status_controls p.1 p.2
      else
        { car_controls := car_controls, status_controls := status_controls, sent := none }
  | Detection.NotDetected => send_controls car_controls status_controls 0 0

/-- State of the gate across a run: the airsim objects and the transcript of
commands actually delivered to the simulator, in order. -/
structure GateTrace where
  car_controls : CarControls
  status_controls : StatusControls
  delivered : List CarControls
deriving Repr, DecidableEq

/-- The gate state at construction time in `main`. -/
def initialTrace : GateTrace :=
  { car_controls := initialCarControls, status_controls := initialStatus, delivered := [] }

/-- One `send_controls` call folded into the trace. -/
def gate_step (tr : GateTrace) (cand : ℚ × ℚ) : GateTrace :=
  let r := send_controls tr.car_controls tr.status_controls cand.1 cand.2
  { car_controls := r.car_controls,
    status_controls := r.status_controls,
    delivered := tr.delivered ++ r.sent.toList }

/-- Run the gate from its initial state over a sequence of candidate pairs. -/
def run_gate (cands : List (ℚ × ℚ)) : GateTrace :=
  cands.foldl gate_step initialTrace

/-- The status the gate should hold after a transcript of deliveries: the
pair of the last delivered command, or the initial (0, 0) if none. -/
def lastStatus (l : List CarControls) : StatusControls :=
  match l.getLast? with
  | none => initialStatus
  | some c => { throttle := c.throttle, steering := c.steering }

/-- One gate call preserves the agreement between the status dictionary and
the transcript of delivered commands. -/
theorem gate_step_preserves (tr : GateTrace) (cand : ℚ × ℚ)
    (h : tr.status_controls = lastStatus tr.delivered) :
    (gate_step tr cand).status_controls = lastStatus (gate_step tr cand).delivered := by
  simp only [gate_step, send_controls]
  by_cases hg : CONTROL_THROTTLE_THRESHOLD < |tr.status_controls.throttle - cand.1| ∨
      CONTROL_STEERING_THRESHOLD < |tr.status_controls.steering - cand.2|
  · rw [if_pos hg]
    by_cases hneg : cand.1 < 0 <;>
      simp [hneg, lastStatus, List.getLast?_append]
  · rw [if_neg hg]
    simpa using h

/-- The agreement between status and transcript is preserved along any fold
of gate calls. -/
theorem foldl_preserves (cands : List (ℚ × ℚ)) (tr : GateTrace)
    (h : tr.status_controls = lastStatus tr.delivered) :
    (cands.foldl gate_step tr).status_controls =
      lastStatus (cands.foldl gate_step tr).delivered := by
  induction cands generalizing tr with
  | nil => exact h
  | cons c cs ih => exact ih _ (gate_step_preserves tr c h)

/-- C1: `send_controls` delivers a command to the simulator if and only if
the candidate differs from the last sent pair by more than the threshold on
the throttle axis or the steering axis; in particular, from the initial
(0, 0) state, the candidate (0.05, 0.05) is not transmitted, while
(0.15, 0) is transmitted and updates the status to (0.15, 0). -/
theorem send_controls_transmits_iff (car : CarControls) (status : StatusControls)
    (candidate_throttle candidate_steering : ℚ) :
    ((send_controls car status candidate_throttle candidate_steering).sent.isSome = true ↔
      |status.throttle - candidate_throttle| > CONTROL_THROTTLE_THRESHOLD ∨
      |status.steering - candidate_steering| > CONTROL_STEERING_THRESHOLD) ∧
    (send_controls initialCarControls initialStatus (1/20) (1/20)).sent = none ∧
    (send_controls initialCarControls initialStatus (3/20) 0).sent.isSome = true ∧
    (send_controls initialCarControls initialStatus (3/20) 0).status_controls =
      { throttle := 3/20, steering := 0 } := by
  refine ⟨?_, ?_, ?_, ?_⟩
  · simp only [send_controls]
    by_cases hg : CONTROL_THROTTLE_THRESHOLD < |status.throttle - candidate_throttle| ∨
        CONTROL_STEERING_THRESHOLD < |status.steering - candidate_steering|
    · rw [if_pos hg]
      simpa using hg
    · rw [if_neg hg]
      simpa using hg
  · norm_num [send_controls, initialStatus, CONTROL_THROTTLE_THRESHOLD,
      CONTROL_STEERING_THRESHOLD, abs]
  · norm_num [send_controls, initialStatus, CONTROL_THROTTLE_THRESHOLD,
      CONTROL_STEERING_THRESHOLD, abs]
  · norm_num [send_controls, initialStatus, CONTROL_THROTTLE_THRESHOLD,
      CONTROL_STEERING_THRESHOLD, abs]

/-- C2 counterexample: with a contour of radius 5 (below `THRESHOLD_CONTOUR`)
and status (0.5, 0.5), the loop body does NOT behave as in the no-contour
branch: the no-contour branch transmits the stop command (0, 0), while the
below-threshold detection performs no `send_controls` call at all. -/
theorem below_threshold_detection_not_stop :
    ¬ (loop_body initialCarControls { throttle := 1/2, steering := 1/2 }
        (Detection.Detected 320 240 5) =
      loop_body initialCarControls { throttle := 1/2, steering := 1/2 }
        Detection.NotDetected) := by
  norm_num [loop_body, send_controls, THRESHOLD_CONTOUR,
    CONTROL_THROTTLE_THRESHOLD, CONTROL_STEERING_THRESHOLD, abs, SendResult.mk.injEq]

/-- C2 amended: in an iteration where the detection's radius is at or below
`THRESHOLD_CONTOUR`, the loop makes no `send_controls` call at all: nothing
is transmitted and both the `car_controls` object and the status dictionary
are left unchanged. -/
theorem below_threshold_detection_noop (car : CarControls) (status : StatusControls)
    (x y r : ℚ) (h : r ≤ THRESHOLD_CONTOUR) :
    loop_body car status (Detection.Detected x y r) =
      { car_controls := car, status_controls := status, sent := none } := by
  simp only [loop_body]
  rw [if_neg (not_lt.mpr h)]

/-- Witness for the amended C2 at radius 5 and status (0.5, 0.5). -/
theorem below_threshold_detection_noop_witness :
    (5:ℚ) ≤ THRESHOLD_CONTOUR ∧
    loop_body initialCarControls { throttle := 1/2, steering := 1/2 }
        (Detection.Detected 320 240 5) =
      { car_controls := initialCarControls,
        status_controls := { throttle := 1/2, steering := 1/2 }, sent := none } :=
  ⟨by norm_num [THRESHOLD_CONTOUR],
    below_threshold_detection_noop initialCarControls { throttle := 1/2, steering := 1/2 }
      320 240 5 (by norm_num [THRESHOLD_CONTOUR])⟩

/-- C3: after any sequence of gate calls starting from the initial state,
the status dictionary equals the pair of the last command actually delivered
to the simulator (or the initial (0, 0) if none was delivered); moreover a
candidate suppressed by hysteresis never changes the status dictionary. -/
theorem gate_state_matches_delivered (cands : List (ℚ × ℚ)) :
    ((run_gate cands).status_controls = lastStatus (run_gate cands).delivered) ∧
    (∀ car status : _, ∀ t s : ℚ,
      (send_controls car status t s).sent = none →
      (send_controls car status t s).status_controls = status) := by
  constructor
  · exact foldl_preserves cands initialTrace rfl
  · intro car status t s hnone
    simp only [send_controls] at hnone ⊢
    by_cases hg : CONTROL_THROTTLE_THRESHOLD < |status.throttle - t| ∨
        CONTROL_STEERING_THRESHOLD < |status.steering - s|
    · rw [if_pos hg] at hnone
      simp at hnone
    · rw [if_neg hg]

/-- Witness for C3: a run of one suppressed candidate, and a concrete
suppressed call leaving the status unchanged. -/
theorem gate_state_matches_delivered_witness :
    (run_gate [((1:ℚ)/20, 0)]).status_controls =
      lastStatus (run_gate [((1:ℚ)/20, 0)]).delivered ∧
    (send_controls initialCarControls initialStatus (1/20) 0).status_controls =
      initialStatus :=
  ⟨(gate_state_matches_delivered [((1:ℚ)/20, 0)]).1,
    (gate_state_matches_delivered [((1:ℚ)/20, 0)]).2 initialCarControls initialStatus
      (1/20) 0
      (by norm_num [send_controls, initialStatus, CONTROL_THROTTLE_THRESHOLD,
        CONTROL_STEERING_THRESHOLD, abs])⟩

/-- C4: a candidate whose difference from the last sent pair is exactly the
threshold (0.1) on each axis does not transmit and does not change any
state: the comparison is strict. -/
theorem gate_boundary_no_send (car : CarControls) (status : StatusControls)
    (t s : ℚ)
    (ht : |status.throttle - t| = CONTROL_THROTTLE_THRESHOLD)
    (hs : |status.steering - s| = CONTROL_STEERING_THRESHOLD) :
    send_controls car status t s =
      { car_controls := car, status_controls := status, sent := none } := by
  simp only [send_controls, ht, hs]
  simp

/-- Witness for C4 at the initial state with candidate (0.1, 0.1). -/
theorem gate_boundary_no_send_witness :
    |initialStatus.throttle - 1/10| = CONTROL_THROTTLE_THRESHOLD ∧
    send_controls initialCarControls initialStatus (1/10) (1/10) =
      { car_controls := initialCarControls, status_controls := initialStatus, sent := none } :=
  ⟨by norm_num [initialStatus, CONTROL_THROTTLE_THRESHOLD],
    gate_boundary_no_send initialCarControls initialStatus (1/10) (1/10)
      (by norm_num [initialStatus, CONTROL_THROTTLE_THRESHOLD])
      (by norm_num [initialStatus, CONTROL_STEERING_THRESHOLD])⟩

/-- C5: every command delivered by `send_controls` carries the gear derived
from the candidate throttle's sign — reverse manual gear -1 when the
throttle is negative, automatic gear otherwise; in particular the candidate
(-0.3, 0) from the initial state is transmitted with reverse gear. -/
theorem gear_from_throttle_sign (car : CarControls) (status : StatusControls)
    (t s : ℚ) :
    (∀ cmd : CarControls, (send_controls car status t s).sent = some cmd →
      (t < 0 → cmd.is_manual_gear = true ∧ cmd.manual_gear = -1) ∧
      (¬ t < 0 → cmd.is_manual_gear = false)) ∧
    ((send_controls initialCarControls initialStatus (-3/10) 0).sent =
      some { throttle := -3/10, steering := 0, is_manual_gear := true, manual_gear := -1 }) := by
  constructor
  · intro cmd hcmd
    simp only [send_controls] at hcmd
    by_cases hg : CONTROL_THROTTLE_THRESHOLD < |status.throttle - t| ∨
        CONTROL_STEERING_THRESHOLD < |status.steering - s|
    · rw [if_pos hg] at hcmd
      by_cases hneg : t < 0
      · rw [if_pos hneg] at hcmd
        simp at hcmd
        subst hcmd
        simp [hneg]
      · rw [if_neg hneg] at hcmd
        simp at hcmd
        subst hcmd
        simp [hneg]
    · rw [if_neg hg] at hcmd
      simp at hcmd
  · norm_num [send_controls, initialStatus, initialCarControls,
      CONTROL_THROTTLE_THRESHOLD, CONTROL_STEERING_THRESHOLD, abs]

/-- Witness for C5: the command transmitted for candidate (-0.3, 0) has
reverse gear selected. -/
theorem gear_from_throttle_sign_witness :
    (CarControls.mk (-3/10) 0 true (-1)).is_manual_gear = true ∧
    (CarControls.mk (-3/10) 0 true (-1)).manual_gear = -1 :=
  ((gear_from_throttle_sign initialCarControls initialStatus (-3/10) 0).1
      (CarControls.mk (-3/10) 0 true (-1))
      (by norm_num [send_controls, initialStatus, initialCarControls,
        CONTROL_THROTTLE_THRESHOLD, CONTROL_STEERING_THRESHOLD, abs])).1
    (by norm_num)

/-- C6: forward asymmetry of the mapper — for any x and distance d above
center, the throttle equals minus ` FORWARD_RATIO` times the throttle of the
point mirrored the same distance below center. -/
theorem forward_asymmetry (x d : ℚ) (hd : 0 < d) :
    (coordinates_to_controls x (DIM_Y/2 - d)).1 =
      - FORWARD_RATIO * (coordinates_to_controls x (DIM_Y/2 + d)).1 := by
  have e1 : -((DIM_Y/2 - d) - DIM_Y/2) / DIM_Y = d / 480 := by
    norm_num [DIM_Y]
  have e2 : -((DIM_Y/2 + d) - DIM_Y/2) / DIM_Y = -(d / 480) := by
    norm_num [DIM_Y]
    ring
  simp only [coordinates_to_controls, e1, e2]
  rw [if_pos (by positivity), if_neg (by simp; positivity)]
  ring

/-- Witness for C6 at x = 0 and d = 120. -/
theorem forward_asymmetry_witness :
    (0:ℚ) < 120 ∧
    (coordinates_to_controls 0 (DIM_Y/2 - 120)).1 =
      - FORWARD_RATIO * (coordinates_to_controls 0 (DIM_Y/2 + 120)).1 :=
  ⟨by norm_num, forward_asymmetry 0 120 (by norm_num)⟩

/-- C7: centering — the mapper sends the exact screen center to (0, 0). -/
theorem centering_property :
    coordinates_to_controls (DIM_X/2) (DIM_Y/2) = (0, 0) := by
  norm_num [coordinates_to_controls, DIM_X, DIM_Y]

/-- C8: steering sign convention — on the vertical center line, a point left
of the horizontal center yields positive steering and a point right of it
yields negative steering. -/
theorem steering_sign_convention (x : ℚ) :
    (x < DIM_X/2 → (coordinates_to_controls x (DIM_Y/2)).2 > 0) ∧
    (DIM_X/2 < x → (coordinates_to_controls x (DIM_Y/2)).2 < 0) := by
  norm_num [coordinates_to_controls, DIM_X, DIM_Y]
  intro h
  linarith

/-- Witness for C8 at x = 100 (left of center) and x = 500 (right). -/
theorem steering_sign_convention_witness :
    ((100:ℚ) < DIM_X/2 ∧ (coordinates_to_controls 100 (DIM_Y/2)).2 > 0) ∧
    (DIM_X/2 < (500:ℚ) ∧ (coordinates_to_controls 500 (DIM_Y/2)).2 < 0) :=
  ⟨⟨by norm_num [DIM_X], (steering_sign_convention 100).1 (by norm_num [DIM_X])⟩,
    ⟨by norm_num [DIM_X], (steering_sign_convention 500).2 (by norm_num [DIM_X])⟩⟩

/-- C9: for in-domain coordinates, the mapper's outputs are bounded —
throttle lies in [-1/2, 1] and steering in [-1/2, 1/2], without any
clamping in the code. -/
theorem mapper_output_bounded (x y : ℚ)
    (hx0 : 0 ≤ x) (hx1 : x ≤ DIM_X) (hy0 : 0 ≤ y) (hy1 : y ≤ DIM_Y) :
    (-1/2 ≤ (coordinates_to_controls x y).1 ∧ (coordinates_to_controls x y).1 ≤ 1) ∧
    (-1/2 ≤ (coordinates_to_controls x y).2 ∧ (coordinates_to_controls x y).2 ≤ 1/2) := by
  simp only [coordinates_to_controls, DIM_X, DIM_Y, FORWARD_RATIO] at *
  split_ifs with h <;>
    constructor <;> constructor <;> simp <;> linarith

/-- Witness for C9 at the corner (0, 0) of the screen. -/
theorem mapper_output_bounded_witness :
    (-1/2 ≤ (coordinates_to_controls 0 0).1 ∧ (coordinates_to_controls 0 0).1 ≤ 1) ∧
    (-1/2 ≤ (coordinates_to_controls 0 0).2 ∧ (coordinates_to_controls 0 0).2 ≤ 1/2) :=
  mapper_output_bounded 0 0 (by norm_num) (by norm_num [DIM_X]) (by norm_num)
    (by norm_num [DIM_Y])

/-- C10: when `setCarControls` fails, the exception leaves the status
dictionary unchanged (the updates come after the call), and when the call
succeeds the fallible gate agrees with `send_controls`. -/
theorem status_unchanged_on_failure (car : CarControls) (status : StatusControls)
    (t s : ℚ) :
    (∀ e : CarControls × StatusControls,
      send_controls_exc false car status t s = Except.error e → e.2 = status) ∧
    (send_controls_exc true car status t s = Except.ok (send_controls car status t s)) := by
  constructor
  · intro e he
    simp only [send_controls_exc] at he
    by_cases hg : CONTROL_THROTTLE_THRESHOLD < |status.throttle - t| ∨
        CONTROL_STEERING_THRESHOLD < |status.steering - s|
    · rw [if_pos hg] at he
      simp at he
      rw [← he]
    · rw [if_neg hg] at he
      simp at he
  · simp only [send_controls_exc, send_controls]
    by_cases hg : CONTROL_THROTTLE_THRESHOLD < |status.throttle - t| ∨
        CONTROL_STEERING_THRESHOLD < |status.steering - s|
    · rw [if_pos hg, if_pos hg]
      simp
    · rw [if_neg hg, if_neg hg]

/-- Witness for C10: a failing transmission of (0.5, 0) from the initial
state leaves the status component of the error at its old value. -/
theorem status_unchanged_on_failure_witness :
    ((CarControls.mk (1/2) 0 false 0, initialStatus) :
        CarControls × StatusControls).2 = initialStatus :=
  (status_unchanged_on_failure initialCarControls initialStatus (1/2) 0).1
    (CarControls.mk (1/2) 0 false 0, initialStatus)
    (by norm_num [send_controls_exc, initialStatus, initialCarControls,
      CONTROL_THROTTLE_THRESHOLD, CONTROL_STEERING_THRESHOLD, abs])

end AirsimTrackControl
